import Mathlib

/-!
# URL resolver of `frontend/src/utils/backendUrl.js`

A shallow embedding of the module `backendUrl.js` and the properties of its
five exported functions.

The JavaScript functions take no argument: they read the build-time variable
`process.env.REACT_APP_NETWORK_IP`, `window.location` and `localStorage`, and
act on the console, on `localStorage` and on the page (reload).  The embedding
makes that environment an explicit `World` value; every function takes the
world it runs in and returns its JavaScript result together with the world it
leaves behind.  Console calls, storage writes and reloads are appended, in
program order, to the `effects` trace of the world.

JavaScript values that occur here are strings and `null`/`undefined`; they are
modelled by `Option String` (`none` for `null` and `undefined`).  Strings are
Lean strings; the only substring test of the module is against the ASCII
literal `'ngrok'`.

The store is taken to be available: `getItem` and `setItem` return normally
(no quota or security exception), and `setItem` receives a string.
-/

namespace BackendUrl

/-! ## JavaScript primitives used by the module -/

/-- Truthiness of a JavaScript value that is a string, `null` or `undefined`:
only the non-empty strings are truthy. -/
def truthy : Option String → Bool
  | none => false
  | some s => s != ""

/-- The JavaScript operator `a || b` on values that are strings or `null`:
`a` when `a` is truthy, `b` otherwise. -/
def jsOr (a b : Option String) : Option String :=
  if truthy a then a else b

/-- The string a template literal puts in place of an interpolated value:
the string itself, and the text `null` for `null`. -/
def jsToString : Option String → String
  | none => "null"
  | some s => s

/-- Search of the character list `p` inside the character list `s`, trying
every start position from the left. -/
def includesChars : List Char → List Char → Bool
  | [], p => p.isEmpty
  | c :: cs, p => p.isPrefixOf (c :: cs) || includesChars cs p

/-- The method `String.prototype.includes`: `s.includes(p)`. -/
def includes (s p : String) : Bool :=
  includesChars s.data p.data

/-- Whether the string `s` begins with the string `p`. -/
def startsWith (s p : String) : Bool :=
  p.data.isPrefixOf s.data

/-! ## The environment of the module -/

/-- One observable action of the module on its environment. -/
inductive Effect where
  /-- The call `console.error(msg)`. -/
  | consoleError (msg : String)
  /-- The call `console.warn(msg)`. -/
  | consoleWarn (msg : String)
  /-- The call `console.log(msg)`. -/
  | consoleLog (msg : String)
  /-- The call `localStorage.setItem(key, value)`. -/
  | setItem (key value : String)
  /-- The call `window.location.reload()`. -/
  | reload
  deriving DecidableEq, Repr

/-- The environment a function of the module runs in. -/
structure World where
  /-- The build-time variable `process.env.REACT_APP_NETWORK_IP`
  (`none` when it is undefined). -/
  envNetworkIp : Option String
  /-- The page host, `window.location.hostname`. -/
  hostname : String
  /-- The page scheme, `window.location.protocol` (such as `"https:"`). -/
  protocol : String
  /-- The browser store: `localStorage.getItem(k)` is `localStorage k`. -/
  localStorage : String → Option String
  /-- The actions performed so far, oldest first. -/
  effects : List Effect

/-- The store after `localStorage.setItem(key, value)`. -/
def setItem (store : String → Option String) (key value : String) :
    String → Option String :=
  fun k => if k = key then some value else store k

/-- Appends one action to the trace of the world. -/
def World.emit (w : World) (e : Effect) : World :=
  { w with effects := w.effects ++ [e] }

/-- The fixed key of the persisted override. -/
def storageKey : String := "BACKEND_NETWORK_IP"

/-- The text of the configuration error of `getBackendBaseUrl`. -/
def notConfiguredMsg : String :=
  "NETWORK_IP not configured! Set REACT_APP_NETWORK_IP in .env or call setBackendIP()"

/-- The text of the warning of `getWebSocketUrl`. -/
def wsDisabledMsg : String :=
  "WebSocket disabled: HTTPS pages cannot use insecure ws:// connections. Backend must support wss:// or use HTTP access."

/-! ## The module -/

/-- The module constant
`const NETWORK_IP = process.env.REACT_APP_NETWORK_IP || null`. -/
def NETWORK_IP (w : World) : Option String :=
  jsOr w.envNetworkIp none

/-- The function `getBackendBaseUrl`: the returned string and the world after
the call. -/
def getBackendBaseUrl (w : World) : String × World :=
  let hostname := w.hostname
  if includes hostname "ngrok" then
    if truthy (NETWORK_IP w) then
      ("http://" ++ jsToString (NETWORK_IP w) ++ ":8000", w)
    else
      let savedIP := w.localStorage storageKey
      if truthy savedIP then
        ("http://" ++ jsToString savedIP ++ ":8000", w)
      else
        ("http://localhost:8000", w.emit (.consoleError notConfiguredMsg))
  else if hostname ≠ "localhost" ∧ hostname ≠ "127.0.0.1" then
    ("http://" ++ hostname ++ ":8000", w)
  else
    ("http://localhost:8000", w)

/-- The function `getApiBaseUrl`. -/
def getApiBaseUrl (w : World) : String × World :=
  let r := getBackendBaseUrl w
  (r.1 ++ "/api", r.2)

/-- The function `getWebSocketUrl`: the returned string, or `none` for the
returned `null`, and the world after the call. -/
def getWebSocketUrl (w : World) : Option String × World :=
  let hostname := w.hostname
  let protocol := w.protocol
  let isSecure : Bool := protocol = "https:"
  if isSecure || includes hostname "ngrok" then
    (none, w.emit (.consoleWarn wsDisabledMsg))
  else if hostname ≠ "localhost" ∧ hostname ≠ "127.0.0.1" then
    (some ("ws://" ++ hostname ++ ":8000"), w)
  else
    (some "ws://localhost:8000", w)

/-- The function `setBackendIP`: it returns no value, so only the world after
the call is given.  The reload re-evaluates the module in the same build and
with the same store, so the world keeps both. -/
def setBackendIP (ip : String) (w : World) : World :=
  let w1 := { w with localStorage := setItem w.localStorage storageKey ip }.emit
    (.setItem storageKey ip)
  let w2 := w1.emit (.consoleLog ("Backend IP set to: " ++ ip))
  w2.emit .reload

/-- The function `getBackendIP`:
`NETWORK_IP || localStorage.getItem('BACKEND_NETWORK_IP') || 'Not configured'`. -/
def getBackendIP (w : World) : Option String × World :=
  (jsOr (jsOr (NETWORK_IP w) (w.localStorage storageKey)) (some "Not configured"), w)

/-- A world for examples: the given build-time variable, host, scheme and
stored override, nothing else stored and an empty trace. -/
def mkWorld (env : Option String) (hostname protocol : String)
    (saved : Option String) : World :=
  { envNetworkIp := env, hostname := hostname, protocol := protocol,
    localStorage := fun k => if k = storageKey then saved else none,
    effects := [] }

/-- The case in which `getBackendBaseUrl` reports the configuration error:
a tunnel hostname, no configured address, and an override that is absent or
the empty string. -/
def unconfiguredTunnel (w : World) : Prop :=
  includes w.hostname "ngrok" = true ∧ NETWORK_IP w = none ∧
    (w.localStorage storageKey = none ∨ w.localStorage storageKey = some "")

instance (w : World) : Decidable (unconfiguredTunnel w) := by
  unfold unconfiguredTunnel
  infer_instance

/-! ## Facts about the primitives -/

theorem includesChars_iff_infix (s p : List Char) :
    includesChars s p = true ↔ p <:+: s := by
  induction s with
  | nil => simp [includesChars, List.isEmpty_iff]
  | cons c cs ih =>
    simp only [includesChars, Bool.or_eq_true, ih, List.isPrefixOf_iff_prefix,
      List.infix_cons_iff]

theorem includes_iff_infix (s p : String) :
    includes s p = true ↔ p.data <:+: s.data :=
  includesChars_iff_infix s.data p.data

theorem truthy_some (s : String) : truthy (some s) = true ↔ s ≠ "" := by
  simp [truthy]

theorem jsOr_none_eq_some (a : Option String) (A : String)
    (h : jsOr a none = some A) : a = some A ∧ A ≠ "" := by
  unfold jsOr at h
  split at h
  · subst h
    rename_i ht
    exact ⟨rfl, (truthy_some A).1 ht⟩
  · cases h

theorem truthy_of_NETWORK_IP (w : World) (A : String) (h : NETWORK_IP w = some A) :
    truthy (NETWORK_IP w) = true := by
  rw [h]
  exact (truthy_some A).2 (jsOr_none_eq_some _ _ h).2

theorem not_startsWith_wss (h : String) :
    startsWith ("ws://" ++ h ++ ":8000") "wss://" = false := by
  simp [startsWith, String.data_append, List.isPrefixOf]

/-! ## Resolution of the backend base URL on a tunnel hostname -/

/-- C1: on a hostname containing the text ngrok, when the module constant
NETWORK_IP holds the address A, getBackendBaseUrl returns exactly
http://A:8000 and does nothing else, whatever is stored under the override
key and whatever the protocol is. -/
theorem getBackendBaseUrl_tunnel_configured (w : World) (A : String)
    (htunnel : includes w.hostname "ngrok" = true)
    (hcfg : NETWORK_IP w = some A) :
    getBackendBaseUrl w = ("http://" ++ A ++ ":8000", w) := by
  have ht : truthy (NETWORK_IP w) = true := truthy_of_NETWORK_IP w A hcfg
  simp only [getBackendBaseUrl, htunnel, ht, if_true]
  rw [hcfg]
  rfl

theorem getBackendBaseUrl_tunnel_configured_witness :
    includes (mkWorld (some "192.168.1.7") "ab12.ngrok.io" "https:" (some "10.0.0.5")).hostname
        "ngrok" = true ∧
      NETWORK_IP (mkWorld (some "192.168.1.7") "ab12.ngrok.io" "https:" (some "10.0.0.5"))
        = some "192.168.1.7" ∧
      getBackendBaseUrl (mkWorld (some "192.168.1.7") "ab12.ngrok.io" "https:" (some "10.0.0.5"))
        = ("http://" ++ "192.168.1.7" ++ ":8000",
            mkWorld (some "192.168.1.7") "ab12.ngrok.io" "https:" (some "10.0.0.5")) :=
  ⟨by decide, by decide,
    getBackendBaseUrl_tunnel_configured _ "192.168.1.7" (by decide) (by decide)⟩

/-- C2, as stated, fails: on a tunnel hostname with no configured address and
the empty string stored as the override, the result is the localhost URL and
not the URL built from the stored string. -/
theorem getBackendBaseUrl_tunnel_override_any_string_fails :
    ¬ (∀ (w : World) (B : String), includes w.hostname "ngrok" = true →
        NETWORK_IP w = none → w.localStorage storageKey = some B →
        (getBackendBaseUrl w).1 = "http://" ++ B ++ ":8000") := by
  intro h
  have h0 := h (mkWorld none "ab12.ngrok.io" "https:" (some "")) "" (by decide) (by decide)
    (by decide)
  revert h0
  decide

/-- C2, amended: on a hostname containing the text ngrok, with no configured
address and a non-empty string B stored under the override key,
getBackendBaseUrl returns exactly http://B:8000 and does nothing else. -/
theorem getBackendBaseUrl_tunnel_override (w : World) (B : String)
    (htunnel : includes w.hostname "ngrok" = true)
    (hcfg : NETWORK_IP w = none)
    (hsaved : w.localStorage storageKey = some B) (hB : B ≠ "") :
    getBackendBaseUrl w = ("http://" ++ B ++ ":8000", w) := by
  have ht : truthy (some B) = true := (truthy_some B).2 hB
  have hf : truthy (none : Option String) = false := rfl
  simp only [getBackendBaseUrl, htunnel, hcfg, hsaved, ht, hf, if_true]
  rfl

theorem getBackendBaseUrl_tunnel_override_witness :
    includes (mkWorld none "ab12.ngrok.io" "https:" (some "10.0.0.5")).hostname "ngrok" = true ∧
      NETWORK_IP (mkWorld none "ab12.ngrok.io" "https:" (some "10.0.0.5")) = none ∧
      (mkWorld none "ab12.ngrok.io" "https:" (some "10.0.0.5")).localStorage storageKey
        = some "10.0.0.5" ∧
      getBackendBaseUrl (mkWorld none "ab12.ngrok.io" "https:" (some "10.0.0.5"))
        = ("http://" ++ "10.0.0.5" ++ ":8000",
            mkWorld none "ab12.ngrok.io" "https:" (some "10.0.0.5")) :=
  ⟨by decide, by decide, by decide,
    getBackendBaseUrl_tunnel_override _ "10.0.0.5" (by decide) (by decide) (by decide)
      (by decide)⟩

/-- C3, as stated, fails in its last part: the diagnostic is also logged in a
case where an override is stored, namely when the stored string is empty. -/
theorem getBackendBaseUrl_logs_only_when_nothing_stored_fails :
    ¬ (∀ w : World, (getBackendBaseUrl w).2.effects ≠ w.effects →
        includes w.hostname "ngrok" = true ∧ NETWORK_IP w = none ∧
          w.localStorage storageKey = none) := by
  intro h
  have h0 := h (mkWorld none "ab12.ngrok.io" "https:" (some "")) (by decide)
  revert h0
  decide

/-- C3, amended: on a hostname containing the text ngrok, when no configured
address is set and the override is absent or the empty string,
getBackendBaseUrl returns exactly http://localhost:8000 and logs exactly one
error-level diagnostic; in every other case it leaves the world as it was,
so it logs nothing. -/
theorem getBackendBaseUrl_unconfigured_tunnel (w : World) :
    (unconfiguredTunnel w →
        getBackendBaseUrl w
          = ("http://localhost:8000", w.emit (.consoleError notConfiguredMsg))) ∧
      (¬ unconfiguredTunnel w → (getBackendBaseUrl w).2 = w) := by
  unfold unconfiguredTunnel
  constructor
  · rintro ⟨htunnel, hcfg, hsaved | hsaved⟩ <;>
      simp [getBackendBaseUrl, htunnel, hcfg, hsaved, truthy]
  · intro hn
    unfold getBackendBaseUrl
    by_cases htunnel : includes w.hostname "ngrok" = true
    · by_cases hcfg : truthy (NETWORK_IP w) = true
      · simp [htunnel, hcfg]
      · by_cases hsaved : truthy (w.localStorage storageKey) = true
        · simp [htunnel, hcfg, hsaved]
        · exfalso
          apply hn
          refine ⟨htunnel, ?_, ?_⟩
          · cases hN : NETWORK_IP w with
            | none => rfl
            | some A => exact absurd (truthy_of_NETWORK_IP w A hN) hcfg
          · cases hS : w.localStorage storageKey with
            | none => exact Or.inl rfl
            | some B =>
              right
              rw [hS] at hsaved
              have : ¬ B ≠ "" := fun hB => hsaved ((truthy_some B).2 hB)
              rw [not_not.1 this]
    · have hfalse : includes w.hostname "ngrok" = false := by simpa using htunnel
      simp only [hfalse]
      by_cases hlan : w.hostname ≠ "localhost" ∧ w.hostname ≠ "127.0.0.1"
      · simp [hlan]
      · simp [hlan]

theorem getBackendBaseUrl_unconfigured_tunnel_witness :
    (unconfiguredTunnel (mkWorld none "ab12.ngrok.io" "https:" none) ∧
        getBackendBaseUrl (mkWorld none "ab12.ngrok.io" "https:" none)
          = ("http://localhost:8000",
              (mkWorld none "ab12.ngrok.io" "https:" none).emit
                (.consoleError notConfiguredMsg))) ∧
      (¬ unconfiguredTunnel (mkWorld none "192.168.1.7" "http:" none) ∧
        (getBackendBaseUrl (mkWorld none "192.168.1.7" "http:" none)).2
          = mkWorld none "192.168.1.7" "http:" none) :=
  ⟨⟨by decide, (getBackendBaseUrl_unconfigured_tunnel _).1 (by decide)⟩,
    ⟨by decide, (getBackendBaseUrl_unconfigured_tunnel _).2 (by decide)⟩⟩

/-! ## Resolution off the tunnel -/

theorem getBackendBaseUrl_off_tunnel (w : World)
    (hoff : includes w.hostname "ngrok" = false) :
    getBackendBaseUrl w =
      if w.hostname ≠ "localhost" ∧ w.hostname ≠ "127.0.0.1" then
        ("http://" ++ w.hostname ++ ":8000", w)
      else ("http://localhost:8000", w) := by
  simp only [getBackendBaseUrl, hoff, Bool.false_eq_true, if_false]

theorem getWebSocketUrl_enabled (w : World)
    (hoff : includes w.hostname "ngrok" = false) (hproto : w.protocol ≠ "https:") :
    getWebSocketUrl w =
      if w.hostname ≠ "localhost" ∧ w.hostname ≠ "127.0.0.1" then
        (some ("ws://" ++ w.hostname ++ ":8000"), w)
      else (some "ws://localhost:8000", w) := by
  simp [getWebSocketUrl, hoff, hproto]

theorem getWebSocketUrl_disabled (w : World)
    (h : w.protocol = "https:" ∨ includes w.hostname "ngrok" = true) :
    getWebSocketUrl w = (none, w.emit (.consoleWarn wsDisabledMsg)) := by
  rcases h with h | h <;> simp [getWebSocketUrl, h]

/-- C4: for every hostname h that does not contain the text ngrok and is
neither localhost nor 127.0.0.1, getBackendBaseUrl returns exactly
http://h:8000 and does nothing else, for every protocol, configured address
and stored override. -/
theorem getBackendBaseUrl_lan (w : World)
    (hoff : includes w.hostname "ngrok" = false)
    (h1 : w.hostname ≠ "localhost") (h2 : w.hostname ≠ "127.0.0.1") :
    getBackendBaseUrl w = ("http://" ++ w.hostname ++ ":8000", w) := by
  rw [getBackendBaseUrl_off_tunnel w hoff, if_pos ⟨h1, h2⟩]

theorem getBackendBaseUrl_lan_witness :
    includes (mkWorld (some "192.168.1.7") "192.168.1.20" "https:" (some "10.0.0.5")).hostname
        "ngrok" = false ∧
      getBackendBaseUrl (mkWorld (some "192.168.1.7") "192.168.1.20" "https:" (some "10.0.0.5"))
        = ("http://" ++ "192.168.1.20" ++ ":8000",
            mkWorld (some "192.168.1.7") "192.168.1.20" "https:" (some "10.0.0.5")) :=
  ⟨by decide, getBackendBaseUrl_lan _ (by decide) (by decide) (by decide)⟩

/-- C5: for every hostname h that does not contain the text ngrok and is
neither localhost nor 127.0.0.1, and every protocol other than https:,
getWebSocketUrl returns exactly the string ws://h:8000, not null, and does
nothing else. -/
theorem getWebSocketUrl_lan (w : World)
    (hoff : includes w.hostname "ngrok" = false)
    (h1 : w.hostname ≠ "localhost") (h2 : w.hostname ≠ "127.0.0.1")
    (hproto : w.protocol ≠ "https:") :
    getWebSocketUrl w = (some ("ws://" ++ w.hostname ++ ":8000"), w) := by
  rw [getWebSocketUrl_enabled w hoff hproto, if_pos ⟨h1, h2⟩]

theorem getWebSocketUrl_lan_witness :
    includes (mkWorld none "192.168.1.20" "http:" none).hostname "ngrok" = false ∧
      getWebSocketUrl (mkWorld none "192.168.1.20" "http:" none)
        = (some ("ws://" ++ "192.168.1.20" ++ ":8000"),
            mkWorld none "192.168.1.20" "http:" none) :=
  ⟨by decide, getWebSocketUrl_lan _ (by decide) (by decide) (by decide) (by decide)⟩

/-- C6: on hostname localhost and on hostname 127.0.0.1, with a protocol
other than https:, getBackendBaseUrl returns exactly http://localhost:8000
and getWebSocketUrl returns exactly ws://localhost:8000, neither doing
anything else; this holds with no override stored, and with any other
content of the store and any build-time address as well. -/
theorem loopback_urls (w : World)
    (hloop : w.hostname = "localhost" ∨ w.hostname = "127.0.0.1")
    (hproto : w.protocol ≠ "https:") :
    getBackendBaseUrl w = ("http://localhost:8000", w) ∧
      getWebSocketUrl w = (some "ws://localhost:8000", w) := by
  have hoff : includes w.hostname "ngrok" = false := by
    rcases hloop with h | h <;> rw [h] <;> decide
  have hnot : ¬ (w.hostname ≠ "localhost" ∧ w.hostname ≠ "127.0.0.1") := by
    rintro ⟨h1, h2⟩
    exact hloop.elim h1 h2
  rw [getBackendBaseUrl_off_tunnel w hoff, getWebSocketUrl_enabled w hoff hproto,
    if_neg hnot, if_neg hnot]
  exact ⟨rfl, rfl⟩

theorem loopback_urls_witness :
    (getBackendBaseUrl (mkWorld none "127.0.0.1" "http:" none)
        = ("http://localhost:8000", mkWorld none "127.0.0.1" "http:" none) ∧
      getWebSocketUrl (mkWorld none "127.0.0.1" "http:" none)
        = (some "ws://localhost:8000", mkWorld none "127.0.0.1" "http:" none)) ∧
    (getBackendBaseUrl (mkWorld none "localhost" "http:" none)
        = ("http://localhost:8000", mkWorld none "localhost" "http:" none) ∧
      getWebSocketUrl (mkWorld none "localhost" "http:" none)
        = (some "ws://localhost:8000", mkWorld none "localhost" "http:" none)) :=
  ⟨loopback_urls _ (Or.inr rfl) (by decide), loopback_urls _ (Or.inl rfl) (by decide)⟩

/-! ## The WebSocket URL and its disabled value -/

/-- C7: when the protocol is https:, getWebSocketUrl returns null, for every
hostname, configured address and stored override; and on every input, a
string returned by getWebSocketUrl does not begin with wss://. -/
theorem getWebSocketUrl_secure (w : World) :
    (w.protocol = "https:" → (getWebSocketUrl w).1 = none) ∧
      (∀ u : String, (getWebSocketUrl w).1 = some u → startsWith u "wss://" = false) := by
  constructor
  · intro hs
    rw [getWebSocketUrl_disabled w (Or.inl hs)]
  · intro u hu
    by_cases hd : w.protocol = "https:" ∨ includes w.hostname "ngrok" = true
    · rw [getWebSocketUrl_disabled w hd] at hu
      cases hu
    · have hproto : w.protocol ≠ "https:" := fun h => hd (Or.inl h)
      have hoff : includes w.hostname "ngrok" = false := by
        cases hi : includes w.hostname "ngrok" with
        | false => rfl
        | true => exact absurd (Or.inr hi) hd
      rw [getWebSocketUrl_enabled w hoff hproto] at hu
      split at hu
      · cases hu
        exact not_startsWith_wss w.hostname
      · cases hu
        decide

theorem getWebSocketUrl_secure_witness :
    (getWebSocketUrl (mkWorld none "192.168.1.20" "https:" none)).1 = none ∧
      startsWith "ws://wss.example:8000" "wss://" = false :=
  ⟨(getWebSocketUrl_secure (mkWorld none "192.168.1.20" "https:" none)).1 (by decide),
    (getWebSocketUrl_secure (mkWorld none "wss.example" "http:" none)).2
      "ws://wss.example:8000" (by decide)⟩

/-- C8: getWebSocketUrl returns null if and only if the protocol is https:
or the hostname contains the text ngrok; in exactly those cases it emits one
warning, and otherwise it does nothing; and in every other case its result
is a string ws://H:8000, where H is the hostname or localhost. -/
theorem getWebSocketUrl_null_iff (w : World) :
    ((getWebSocketUrl w).1 = none ↔
        (w.protocol = "https:" ∨ includes w.hostname "ngrok" = true)) ∧
      ((w.protocol = "https:" ∨ includes w.hostname "ngrok" = true) →
        (getWebSocketUrl w).2 = w.emit (.consoleWarn wsDisabledMsg)) ∧
      (¬ (w.protocol = "https:" ∨ includes w.hostname "ngrok" = true) →
        (getWebSocketUrl w).2 = w ∧
          ∃ H : String, (H = w.hostname ∨ H = "localhost") ∧
            (getWebSocketUrl w).1 = some ("ws://" ++ H ++ ":8000")) := by
  have hen : ¬ (w.protocol = "https:" ∨ includes w.hostname "ngrok" = true) →
      (getWebSocketUrl w).2 = w ∧
        ∃ H : String, (H = w.hostname ∨ H = "localhost") ∧
          (getWebSocketUrl w).1 = some ("ws://" ++ H ++ ":8000") := by
    intro hd
    have hproto : w.protocol ≠ "https:" := fun h => hd (Or.inl h)
    have hoff : includes w.hostname "ngrok" = false := by
      cases hi : includes w.hostname "ngrok" with
      | false => rfl
      | true => exact absurd (Or.inr hi) hd
    rw [getWebSocketUrl_enabled w hoff hproto]
    split
    · exact ⟨rfl, w.hostname, Or.inl rfl, rfl⟩
    · exact ⟨rfl, "localhost", Or.inr rfl, rfl⟩
  refine ⟨⟨?_, ?_⟩, ?_, hen⟩
  · intro hnull
    by_contra hd
    obtain ⟨_, H, _, hH⟩ := hen hd
    rw [hnull] at hH
    cases hH
  · intro hd
    rw [getWebSocketUrl_disabled w hd]
  · intro hd
    rw [getWebSocketUrl_disabled w hd]

theorem getWebSocketUrl_null_iff_witness :
    (getWebSocketUrl (mkWorld none "ab12.ngrok.io" "http:" none)).1 = none ∧
      (getWebSocketUrl (mkWorld none "ab12.ngrok.io" "http:" none)).2
        = (mkWorld none "ab12.ngrok.io" "http:" none).emit (.consoleWarn wsDisabledMsg) ∧
      ((getWebSocketUrl (mkWorld none "192.168.1.20" "http:" none)).2
          = mkWorld none "192.168.1.20" "http:" none ∧
        ∃ H : String, (H = (mkWorld none "192.168.1.20" "http:" none).hostname ∨
            H = "localhost") ∧
          (getWebSocketUrl (mkWorld none "192.168.1.20" "http:" none)).1
            = some ("ws://" ++ H ++ ":8000")) :=
  ⟨(getWebSocketUrl_null_iff (mkWorld none "ab12.ngrok.io" "http:" none)).1.2
      (Or.inr (by decide)),
    (getWebSocketUrl_null_iff (mkWorld none "ab12.ngrok.io" "http:" none)).2.1
      (Or.inr (by decide)),
    (getWebSocketUrl_null_iff (mkWorld none "192.168.1.20" "http:" none)).2.2 (by decide)⟩

/-! ## The API base URL -/

/-- C9: on every input, getApiBaseUrl returns the string returned by
getBackendBaseUrl followed by /api, and acts on the world as
getBackendBaseUrl does; on hostname localhost the result is exactly
http://localhost:8000/api. -/
theorem getApiBaseUrl_eq (w : World) :
    (getApiBaseUrl w).1 = (getBackendBaseUrl w).1 ++ "/api" ∧
      (getApiBaseUrl w).2 = (getBackendBaseUrl w).2 ∧
      (w.hostname = "localhost" → (getApiBaseUrl w).1 = "http://localhost:8000/api") := by
  refine ⟨rfl, rfl, ?_⟩
  intro hloc
  have hoff : includes w.hostname "ngrok" = false := by
    rw [hloc]
    decide
  have hnot : ¬ (w.hostname ≠ "localhost" ∧ w.hostname ≠ "127.0.0.1") :=
    fun h => h.1 hloc
  simp only [getApiBaseUrl, getBackendBaseUrl_off_tunnel w hoff, if_neg hnot]
  decide

theorem getApiBaseUrl_eq_witness :
    (getApiBaseUrl (mkWorld (some "192.168.1.7") "localhost" "http:" (some "10.0.0.5"))).1
      = "http://localhost:8000/api" :=
  (getApiBaseUrl_eq (mkWorld (some "192.168.1.7") "localhost" "http:" (some "10.0.0.5"))).2.2
    (by decide)

/-! ## The override round trip -/

theorem localStorage_setBackendIP (ip : String) (w : World) :
    (setBackendIP ip w).localStorage storageKey = some ip := by
  simp [setBackendIP, World.emit, setItem]

theorem NETWORK_IP_setBackendIP (ip : String) (w : World) :
    NETWORK_IP (setBackendIP ip w) = NETWORK_IP w := rfl

/-- C10, as stated, fails: with no build-time address, after setBackendIP
of the empty string, getBackendIP returns the text Not configured and not the
empty string. -/
theorem setBackendIP_getBackendIP_any_string_fails :
    ¬ (∀ (ip : String) (w : World), NETWORK_IP w = none →
        (getBackendIP (setBackendIP ip w)).1 = some ip) := by
  intro h
  have h0 := h "" (mkWorld none "ab12.ngrok.io" "https:" none) (by decide)
  revert h0
  decide

/-- C10, amended: for every non-empty address string ip, when no build-time
address is configured, getBackendIP called after setBackendIP(ip) returns
ip. -/
theorem setBackendIP_getBackendIP (ip : String) (w : World)
    (hcfg : NETWORK_IP w = none) (hip : ip ≠ "") :
    (getBackendIP (setBackendIP ip w)).1 = some ip := by
  have ht : truthy (some ip) = true := (truthy_some ip).2 hip
  have hf : truthy (none : Option String) = false := rfl
  simp only [getBackendIP, NETWORK_IP_setBackendIP, hcfg, localStorage_setBackendIP,
    jsOr, ht, hf, if_true, Bool.false_eq_true, if_false]

theorem setBackendIP_getBackendIP_witness :
    NETWORK_IP (mkWorld none "ab12.ngrok.io" "https:" none) = none ∧
      (getBackendIP (setBackendIP "10.0.0.5" (mkWorld none "ab12.ngrok.io" "https:" none))).1
        = some "10.0.0.5" :=
  ⟨by decide, setBackendIP_getBackendIP "10.0.0.5" _ (by decide) (by decide)⟩

/-! ## The displayed address -/

theorem getBackendIP_eq (w : World) :
    getBackendIP w =
      (jsOr (jsOr (NETWORK_IP w) (w.localStorage storageKey)) (some "Not configured"), w) :=
  rfl

/-- C11, as stated, fails: with no configured address and the empty string
present under the override key, getBackendIP returns the text Not configured
and not the stored override. -/
theorem getBackendIP_override_any_present_fails :
    ¬ (∀ (w : World) (B : String), NETWORK_IP w = none →
        w.localStorage storageKey = some B → (getBackendIP w).1 = some B) := by
  intro h
  have h0 := h (mkWorld none "localhost" "http:" (some "")) "" (by decide) (by decide)
  revert h0
  decide

/-- C11, amended: getBackendIP returns the configured address if one is
present; else the persisted override if one is present and not the empty
string; else, the override being absent or empty, the literal string
Not configured.  In particular the configured address wins over any
persisted override. -/
theorem getBackendIP_priority (w : World) :
    (∀ A : String, NETWORK_IP w = some A → (getBackendIP w).1 = some A) ∧
      (∀ B : String, NETWORK_IP w = none → w.localStorage storageKey = some B →
        B ≠ "" → (getBackendIP w).1 = some B) ∧
      (NETWORK_IP w = none →
        (w.localStorage storageKey = none ∨ w.localStorage storageKey = some "") →
        (getBackendIP w).1 = some "Not configured") := by
  have hf : truthy (none : Option String) = false := rfl
  refine ⟨?_, ?_, ?_⟩
  · intro A hA
    have ht : truthy (some A) = true := by
      rw [← hA]
      exact truthy_of_NETWORK_IP w A hA
    simp only [getBackendIP_eq, hA, jsOr, ht, if_true]
  · intro B hcfg hsaved hB
    have ht : truthy (some B) = true := (truthy_some B).2 hB
    simp only [getBackendIP_eq, hcfg, hsaved, jsOr, ht, hf, if_true, Bool.false_eq_true,
      if_false]
  · intro hcfg hsaved
    have he : truthy (some "") = false := by decide
    rcases hsaved with hsaved | hsaved <;>
      simp only [getBackendIP_eq, hcfg, hsaved, jsOr, hf, he, Bool.false_eq_true, if_false]

theorem getBackendIP_priority_witness :
    (getBackendIP (mkWorld (some "192.168.1.7") "localhost" "http:" (some "10.0.0.5"))).1
        = some "192.168.1.7" ∧
      (getBackendIP (mkWorld none "localhost" "http:" (some "10.0.0.5"))).1
        = some "10.0.0.5" ∧
      (getBackendIP (mkWorld none "localhost" "http:" none)).1 = some "Not configured" :=
  ⟨(getBackendIP_priority _).1 "192.168.1.7" (by decide),
    (getBackendIP_priority _).2.1 "10.0.0.5" (by decide) (by decide) (by decide),
    (getBackendIP_priority _).2.2 (by decide) (Or.inl (by decide))⟩

/-! ## The effects of the setter and the frame of the module -/

/-- C12: for every address ip, one call of setBackendIP(ip) adds to the trace
exactly three actions, in this order: the write of ip under the fixed key,
the confirmation log, and one reload; so the reload happens once, and after
the write.  The store holds ip under the key afterwards. -/
theorem setBackendIP_effects (ip : String) (w : World) :
    (setBackendIP ip w).effects =
        w.effects ++ [Effect.setItem storageKey ip,
          Effect.consoleLog ("Backend IP set to: " ++ ip), Effect.reload] ∧
      ((setBackendIP ip w).effects.drop w.effects.length).count Effect.reload = 1 ∧
      (setBackendIP ip w).localStorage storageKey = some ip := by
  have htrace : (setBackendIP ip w).effects =
      w.effects ++ [Effect.setItem storageKey ip,
        Effect.consoleLog ("Backend IP set to: " ++ ip), Effect.reload] := by
    simp [setBackendIP, World.emit]
  refine ⟨htrace, ?_, localStorage_setBackendIP ip w⟩
  rw [htrace, List.drop_left]
  simp [List.count_cons]

/-- C13: setBackendIP(ip) changes the store at the fixed key
BACKEND_NETWORK_IP only: every other key keeps its value; and
getBackendBaseUrl, getApiBaseUrl, getWebSocketUrl and getBackendIP leave the
whole store unchanged. -/
theorem store_frame (w : World) :
    (∀ (ip k : String), k ≠ storageKey →
        (setBackendIP ip w).localStorage k = w.localStorage k) ∧
      (getBackendBaseUrl w).2.localStorage = w.localStorage ∧
      (getApiBaseUrl w).2.localStorage = w.localStorage ∧
      (getWebSocketUrl w).2.localStorage = w.localStorage ∧
      (getBackendIP w).2.localStorage = w.localStorage := by
  have hbase : (getBackendBaseUrl w).2.localStorage = w.localStorage := by
    unfold getBackendBaseUrl
    simp only []
    split
    · split
      · rfl
      · split <;> rfl
    · split <;> rfl
  refine ⟨?_, hbase, hbase, ?_, rfl⟩
  · intro ip k hk
    simp [setBackendIP, World.emit, setItem, hk]
  · unfold getWebSocketUrl
    simp only []
    split
    · rfl
    · split <;> rfl

theorem store_frame_witness :
    (setBackendIP "10.0.0.5" (mkWorld none "ab12.ngrok.io" "https:" (some "10.0.0.9"))).localStorage
        "theme"
      = (mkWorld none "ab12.ngrok.io" "https:" (some "10.0.0.9")).localStorage "theme" :=
  (store_frame (mkWorld none "ab12.ngrok.io" "https:" (some "10.0.0.9"))).1 "10.0.0.5" "theme"
    (by decide)

/-! ## The shape of the base URL -/

theorem jsToString_of_truthy (o : Option String) (h : truthy o = true) :
    jsToString o ≠ "" := by
  cases o with
  | none => cases h
  | some s => exact (truthy_some s).1 h

theorem host_of_url_eq (H : String) (h : "http://" ++ H ++ ":8000" = "http://:8000") :
    H = "" := by
  have hd := congrArg String.data h
  simp only [String.data_append] at hd
  have h2 : "http://".data ++ H.data ++ ":8000".data = "http://".data ++ [] ++ ":8000".data := by
    rw [hd]
    rfl
  have h3 := List.append_cancel_left (List.append_cancel_right h2)
  exact String.ext h3

/-- C14, as stated, fails: on the empty hostname (a page loaded from a file)
the result is http://:8000, whose host part is empty. -/
theorem getBackendBaseUrl_host_nonempty_fails :
    ¬ (∀ w : World, ∃ H : String, H ≠ "" ∧
        (getBackendBaseUrl w).1 = "http://" ++ H ++ ":8000") := by
  intro h
  obtain ⟨H, hne, hH⟩ := h (mkWorld none "" "file:" none)
  have hval : (getBackendBaseUrl (mkWorld none "" "file:" none)).1 = "http://:8000" := by
    decide
  rw [hval] at hH
  exact hne (host_of_url_eq H hH.symm)

/-- C14, amended: for every hostname, protocol, configured address and
persisted override, getBackendBaseUrl returns (it is a total function, so it
throws nothing) a string of the form http://H:8000; and whenever the
hostname is not the empty string, the host part H is non-empty. -/
theorem getBackendBaseUrl_well_formed (w : World) :
    (∃ H : String, (getBackendBaseUrl w).1 = "http://" ++ H ++ ":8000") ∧
      (w.hostname ≠ "" →
        ∃ H : String, H ≠ "" ∧ (getBackendBaseUrl w).1 = "http://" ++ H ++ ":8000") := by
  have hloc : ("localhost" : String) ≠ "" := by decide
  have key : ∃ H : String, (w.hostname ≠ "" → H ≠ "") ∧
      (getBackendBaseUrl w).1 = "http://" ++ H ++ ":8000" := by
    unfold getBackendBaseUrl
    by_cases htunnel : includes w.hostname "ngrok" = true
    · by_cases hcfg : truthy (NETWORK_IP w) = true
      · exact ⟨jsToString (NETWORK_IP w), fun _ => jsToString_of_truthy _ hcfg,
          by simp [htunnel, hcfg]⟩
      · by_cases hsaved : truthy (w.localStorage storageKey) = true
        · exact ⟨jsToString (w.localStorage storageKey),
            fun _ => jsToString_of_truthy _ hsaved, by simp [htunnel, hcfg, hsaved]⟩
        · refine ⟨"localhost", fun _ => hloc, ?_⟩
          simp only [htunnel, hcfg, hsaved, if_true, Bool.false_eq_true, if_false]
          decide
    · by_cases hlan : w.hostname ≠ "localhost" ∧ w.hostname ≠ "127.0.0.1"
      · exact ⟨w.hostname, fun hne => hne, by simp [htunnel, hlan]⟩
      · refine ⟨"localhost", fun _ => hloc, ?_⟩
        simp only [htunnel, hlan, Bool.false_eq_true, if_false]
        decide
  obtain ⟨H, hne, hH⟩ := key
  exact ⟨⟨H, hH⟩, fun h => ⟨H, hne h, hH⟩⟩

theorem getBackendBaseUrl_well_formed_witness :
    ∃ H : String, H ≠ "" ∧
      (getBackendBaseUrl (mkWorld none "192.168.1.20" "http:" none)).1
        = "http://" ++ H ++ ":8000" :=
  (getBackendBaseUrl_well_formed (mkWorld none "192.168.1.20" "http:" none)).2 (by decide)

/-! ## What each result depends on -/

theorem getBackendBaseUrl_fst_congr (w1 w2 : World)
    (hH : w1.hostname = w2.hostname) (hN : NETWORK_IP w1 = NETWORK_IP w2)
    (hS : w1.localStorage storageKey = w2.localStorage storageKey) :
    (getBackendBaseUrl w1).1 = (getBackendBaseUrl w2).1 := by
  unfold getBackendBaseUrl
  simp only [hH, hN, hS]
  by_cases h1 : includes w2.hostname "ngrok" = true
  · by_cases h2 : truthy (NETWORK_IP w2) = true
    · simp [h1, h2]
    · by_cases h3 : truthy (w2.localStorage storageKey) = true
      · simp [h1, h2, h3]
      · simp [h1, h2, h3]
  · by_cases h4 : w2.hostname ≠ "localhost" ∧ w2.hostname ≠ "127.0.0.1"
    · simp [h1, h4]
    · simp [h1, h4]

theorem getApiBaseUrl_fst_congr (w1 w2 : World)
    (h : (getBackendBaseUrl w1).1 = (getBackendBaseUrl w2).1) :
    (getApiBaseUrl w1).1 = (getApiBaseUrl w2).1 := by
  simp only [getApiBaseUrl, h]

theorem getWebSocketUrl_fst_congr (w1 w2 : World)
    (hH : w1.hostname = w2.hostname) (hP : w1.protocol = w2.protocol) :
    (getWebSocketUrl w1).1 = (getWebSocketUrl w2).1 := by
  unfold getWebSocketUrl
  simp only [hH, hP]
  by_cases h1 : (decide (w2.protocol = "https:") || includes w2.hostname "ngrok") = true
  · simp only [h1, if_true]
  · by_cases h4 : w2.hostname ≠ "localhost" ∧ w2.hostname ≠ "127.0.0.1"
    · simp only [h1, if_false, Bool.false_eq_true]
      rw [if_pos h4, if_pos h4]
    · simp only [h1, h4, if_false, Bool.false_eq_true]

theorem getBackendIP_fst_congr (w1 w2 : World)
    (hN : NETWORK_IP w1 = NETWORK_IP w2)
    (hS : w1.localStorage storageKey = w2.localStorage storageKey) :
    (getBackendIP w1).1 = (getBackendIP w2).1 := by
  simp only [getBackendIP, hN, hS]

/-- C15: two calls of getBackendBaseUrl, getApiBaseUrl, getWebSocketUrl or
getBackendIP made with the same configured address, the same value under the
key BACKEND_NETWORK_IP, the same hostname and the same protocol return the
same result, whatever else differs between the two worlds (other stored keys,
the trace of earlier calls). -/
theorem resolution_pure (w1 w2 : World)
    (hN : NETWORK_IP w1 = NETWORK_IP w2)
    (hS : w1.localStorage storageKey = w2.localStorage storageKey)
    (hH : w1.hostname = w2.hostname) (hP : w1.protocol = w2.protocol) :
    (getBackendBaseUrl w1).1 = (getBackendBaseUrl w2).1 ∧
      (getApiBaseUrl w1).1 = (getApiBaseUrl w2).1 ∧
      (getWebSocketUrl w1).1 = (getWebSocketUrl w2).1 ∧
      (getBackendIP w1).1 = (getBackendIP w2).1 :=
  ⟨getBackendBaseUrl_fst_congr w1 w2 hH hN hS,
    getApiBaseUrl_fst_congr w1 w2 (getBackendBaseUrl_fst_congr w1 w2 hH hN hS),
    getWebSocketUrl_fst_congr w1 w2 hH hP,
    getBackendIP_fst_congr w1 w2 hN hS⟩

theorem resolution_pure_witness :
    (getBackendBaseUrl (mkWorld none "ab12.ngrok.io" "https:" (some "10.0.0.5"))).1
        = (getBackendBaseUrl
            { envNetworkIp := some "", hostname := "ab12.ngrok.io", protocol := "https:",
              localStorage := setItem (fun _ => some "10.0.0.5") "theme" "dark",
              effects := [Effect.reload] }).1 ∧
      (getApiBaseUrl (mkWorld none "ab12.ngrok.io" "https:" (some "10.0.0.5"))).1
        = (getApiBaseUrl
            { envNetworkIp := some "", hostname := "ab12.ngrok.io", protocol := "https:",
              localStorage := setItem (fun _ => some "10.0.0.5") "theme" "dark",
              effects := [Effect.reload] }).1 ∧
      (getWebSocketUrl (mkWorld none "ab12.ngrok.io" "https:" (some "10.0.0.5"))).1
        = (getWebSocketUrl
            { envNetworkIp := some "", hostname := "ab12.ngrok.io", protocol := "https:",
              localStorage := setItem (fun _ => some "10.0.0.5") "theme" "dark",
              effects := [Effect.reload] }).1 ∧
      (getBackendIP (mkWorld none "ab12.ngrok.io" "https:" (some "10.0.0.5"))).1
        = (getBackendIP
            { envNetworkIp := some "", hostname := "ab12.ngrok.io", protocol := "https:",
              localStorage := setItem (fun _ => some "10.0.0.5") "theme" "dark",
              effects := [Effect.reload] }).1 :=
  resolution_pure _ _ (by decide) (by decide) rfl rfl

/-- C16: for every hostname that does not contain the text ngrok,
getBackendBaseUrl and getApiBaseUrl return the same result for any two
choices of configured address and persisted override (and of everything else
but the hostname); so after setBackendIP(ip) on such a hostname both results
are what they were before. -/
theorem override_inert_off_tunnel (w1 w2 : World)
    (hH : w1.hostname = w2.hostname)
    (hoff : includes w1.hostname "ngrok" = false) :
    ((getBackendBaseUrl w1).1 = (getBackendBaseUrl w2).1 ∧
        (getApiBaseUrl w1).1 = (getApiBaseUrl w2).1) ∧
      (∀ ip : String,
        (getBackendBaseUrl (setBackendIP ip w1)).1 = (getBackendBaseUrl w1).1 ∧
          (getApiBaseUrl (setBackendIP ip w1)).1 = (getApiBaseUrl w1).1) := by
  have hgen : ∀ v1 v2 : World, v1.hostname = v2.hostname →
      includes v1.hostname "ngrok" = false →
      (getBackendBaseUrl v1).1 = (getBackendBaseUrl v2).1 := by
    intro v1 v2 hv h1
    have h2 : includes v2.hostname "ngrok" = false := hv ▸ h1
    rw [getBackendBaseUrl_off_tunnel v1 h1, getBackendBaseUrl_off_tunnel v2 h2, hv]
    split <;> rfl
  refine ⟨⟨hgen w1 w2 hH hoff, getApiBaseUrl_fst_congr w1 w2 (hgen w1 w2 hH hoff)⟩, ?_⟩
  intro ip
  have hs : (getBackendBaseUrl (setBackendIP ip w1)).1 = (getBackendBaseUrl w1).1 :=
    hgen (setBackendIP ip w1) w1 rfl hoff
  exact ⟨hs, getApiBaseUrl_fst_congr _ _ hs⟩

theorem override_inert_off_tunnel_witness :
    ((getBackendBaseUrl (mkWorld none "192.168.1.20" "http:" none)).1
          = (getBackendBaseUrl (mkWorld (some "192.168.1.7") "192.168.1.20" "http:"
              (some "10.0.0.5"))).1 ∧
        (getApiBaseUrl (mkWorld none "192.168.1.20" "http:" none)).1
          = (getApiBaseUrl (mkWorld (some "192.168.1.7") "192.168.1.20" "http:"
              (some "10.0.0.5"))).1) ∧
      ((getBackendBaseUrl (setBackendIP "10.0.0.5" (mkWorld none "localhost" "http:" none))).1
          = (getBackendBaseUrl (mkWorld none "localhost" "http:" none)).1 ∧
        (getApiBaseUrl (setBackendIP "10.0.0.5" (mkWorld none "localhost" "http:" none))).1
          = (getApiBaseUrl (mkWorld none "localhost" "http:" none)).1) :=
  ⟨(override_inert_off_tunnel (mkWorld none "192.168.1.20" "http:" none)
      (mkWorld (some "192.168.1.7") "192.168.1.20" "http:" (some "10.0.0.5")) rfl
      (by decide)).1,
    (override_inert_off_tunnel (mkWorld none "localhost" "http:" none)
      (mkWorld none "localhost" "http:" none) rfl (by decide)).2 "10.0.0.5"⟩

/-- C17: getWebSocketUrl does not depend on the configured address or on the
persisted override: two worlds with the same hostname and protocol give the
same result; and getBackendBaseUrl does not depend on the protocol: two
worlds with the same hostname, configured address and stored override give
the same result. -/
theorem urls_independence (w1 w2 : World) (hH : w1.hostname = w2.hostname) :
    (w1.protocol = w2.protocol → (getWebSocketUrl w1).1 = (getWebSocketUrl w2).1) ∧
      (NETWORK_IP w1 = NETWORK_IP w2 →
        w1.localStorage storageKey = w2.localStorage storageKey →
        (getBackendBaseUrl w1).1 = (getBackendBaseUrl w2).1) :=
  ⟨fun hP => getWebSocketUrl_fst_congr w1 w2 hH hP,
    fun hN hS => getBackendBaseUrl_fst_congr w1 w2 hH hN hS⟩

theorem urls_independence_witness :
    (getWebSocketUrl (mkWorld none "192.168.1.20" "http:" none)).1
        = (getWebSocketUrl (mkWorld (some "192.168.1.7") "192.168.1.20" "http:"
            (some "10.0.0.5"))).1 ∧
      (getBackendBaseUrl (mkWorld none "ab12.ngrok.io" "http:" (some "10.0.0.5"))).1
        = (getBackendBaseUrl (mkWorld none "ab12.ngrok.io" "https:" (some "10.0.0.5"))).1 :=
  ⟨(urls_independence (mkWorld none "192.168.1.20" "http:" none)
      (mkWorld (some "192.168.1.7") "192.168.1.20" "http:" (some "10.0.0.5")) rfl).1 rfl,
    (urls_independence (mkWorld none "ab12.ngrok.io" "http:" (some "10.0.0.5"))
      (mkWorld none "ab12.ngrok.io" "https:" (some "10.0.0.5")) rfl).2 (by decide)
      (by decide)⟩

/-! ## The WebSocket URL and the base URL name the same host -/

theorem http_split (H : String) :
    "http://" ++ H ++ ":8000" = "http" ++ ("://" ++ H ++ ":8000") := by
  apply String.ext
  simp only [String.data_append]
  rfl

theorem ws_split (H : String) :
    "ws://" ++ H ++ ":8000" = "ws" ++ ("://" ++ H ++ ":8000") := by
  apply String.ext
  simp only [String.data_append]
  rfl

/-- C18: whenever getWebSocketUrl returns a string u (not null), there is a
string R such that getBackendBaseUrl on the same world returns http followed
by R and u is ws followed by R, for every hostname, protocol, configured
address and persisted override. -/
theorem ws_same_host_as_base (w : World) (u : String)
    (hu : (getWebSocketUrl w).1 = some u) :
    ∃ R : String, (getBackendBaseUrl w).1 = "http" ++ R ∧ u = "ws" ++ R := by
  by_cases hd : w.protocol = "https:" ∨ includes w.hostname "ngrok" = true
  · rw [getWebSocketUrl_disabled w hd] at hu
    cases hu
  · have hproto : w.protocol ≠ "https:" := fun h => hd (Or.inl h)
    have hoff : includes w.hostname "ngrok" = false := by
      cases hi : includes w.hostname "ngrok" with
      | false => rfl
      | true => exact absurd (Or.inr hi) hd
    rw [getWebSocketUrl_enabled w hoff hproto] at hu
    rw [getBackendBaseUrl_off_tunnel w hoff]
    by_cases hlan : w.hostname ≠ "localhost" ∧ w.hostname ≠ "127.0.0.1"
    · rw [if_pos hlan] at hu
      rw [if_pos hlan]
      cases hu
      exact ⟨"://" ++ w.hostname ++ ":8000", http_split w.hostname, ws_split w.hostname⟩
    · rw [if_neg hlan] at hu
      rw [if_neg hlan]
      cases hu
      exact ⟨"://localhost:8000", show "http://localhost:8000" = _ by decide, by decide⟩

theorem ws_same_host_as_base_witness :
    ∃ R : String,
      (getBackendBaseUrl (mkWorld none "192.168.1.20" "http:" (some "10.0.0.5"))).1
          = "http" ++ R ∧
        "ws://192.168.1.20:8000" = "ws" ++ R :=
  ws_same_host_as_base (mkWorld none "192.168.1.20" "http:" (some "10.0.0.5"))
    "ws://192.168.1.20:8000" (by decide)

/-! ## The empty string as an address -/

/-- C19: with no configured address and the empty string stored under the
override key, on every hostname containing the text ngrok getBackendBaseUrl
returns http://localhost:8000 (which is not http://:8000) and logs the
configuration error, and getBackendIP returns the text Not configured; and
an empty build-time variable gives the same module constant, null, and the
same four results as an undefined one. -/
theorem empty_address_is_absent (w : World) :
    (NETWORK_IP w = none → w.localStorage storageKey = some "" →
        (getBackendIP w).1 = some "Not configured" ∧
          (includes w.hostname "ngrok" = true →
            getBackendBaseUrl w
                = ("http://localhost:8000", w.emit (.consoleError notConfiguredMsg)) ∧
              (getBackendBaseUrl w).1 ≠ "http://:8000")) ∧
      (w.envNetworkIp = some "" →
        NETWORK_IP w = none ∧
          NETWORK_IP w = NETWORK_IP { w with envNetworkIp := none } ∧
          (getBackendBaseUrl w).1 = (getBackendBaseUrl { w with envNetworkIp := none }).1 ∧
          (getApiBaseUrl w).1 = (getApiBaseUrl { w with envNetworkIp := none }).1 ∧
          (getWebSocketUrl w).1 = (getWebSocketUrl { w with envNetworkIp := none }).1 ∧
          (getBackendIP w).1 = (getBackendIP { w with envNetworkIp := none }).1) := by
  have hf : truthy (none : Option String) = false := rfl
  have he : truthy (some "") = false := by decide
  constructor
  · intro hcfg hsaved
    constructor
    · simp only [getBackendIP, hcfg, hsaved, jsOr, hf, he, Bool.false_eq_true, if_false]
    · intro htunnel
      have hval : getBackendBaseUrl w
          = ("http://localhost:8000", w.emit (.consoleError notConfiguredMsg)) := by
        simp only [getBackendBaseUrl, htunnel, hcfg, hsaved, hf, he, if_true,
          Bool.false_eq_true, if_false]
      refine ⟨hval, ?_⟩
      rw [hval]
      show "http://localhost:8000" ≠ "http://:8000"
      decide
  · intro henv
    have hN : NETWORK_IP w = none := by
      simp only [NETWORK_IP, henv, jsOr, he, Bool.false_eq_true, if_false]
    have hN2 : NETWORK_IP w = NETWORK_IP { w with envNetworkIp := none } := by
      rw [hN]
      rfl
    have hb := getBackendBaseUrl_fst_congr w { w with envNetworkIp := none } rfl hN2 rfl
    exact ⟨hN, hN2, hb, getApiBaseUrl_fst_congr _ _ hb,
      getWebSocketUrl_fst_congr w { w with envNetworkIp := none } rfl rfl,
      getBackendIP_fst_congr w { w with envNetworkIp := none } hN2 rfl⟩

theorem empty_address_is_absent_witness :
    ((getBackendIP (mkWorld none "ab12.ngrok.io" "https:" (some ""))).1
          = some "Not configured" ∧
        getBackendBaseUrl (mkWorld none "ab12.ngrok.io" "https:" (some ""))
          = ("http://localhost:8000",
              (mkWorld none "ab12.ngrok.io" "https:" (some "")).emit
                (.consoleError notConfiguredMsg))) ∧
      NETWORK_IP (mkWorld (some "") "ab12.ngrok.io" "https:" (some "10.0.0.5")) = none :=
  ⟨⟨((empty_address_is_absent (mkWorld none "ab12.ngrok.io" "https:" (some ""))).1
        (by decide) (by decide)).1,
      (((empty_address_is_absent (mkWorld none "ab12.ngrok.io" "https:" (some ""))).1
        (by decide) (by decide)).2 (by decide)).1⟩,
    ((empty_address_is_absent (mkWorld (some "") "ab12.ngrok.io" "https:"
      (some "10.0.0.5"))).2 (by decide)).1⟩

end BackendUrl
